import Mathlib

/-!
Verification of the `make-component` module (src/index.js): a registrar
`makewc`, a lifecycle base class `Base` (hooks `pre`, `template`, `init`,
`setupError`, plus `render` and `popBubble`), and a form-binding subclass
`FormBase` (change/input handler, debounce timer, `data` getter/setter,
default `handleChange`).

The JavaScript is shallowly embedded: JS values as an inductive `JSVal`
with JS `typeof` semantics (in particular `typeof null = "object"`),
DOM events as records of the flags the module touches, the host custom
element registry as an association list, timers as an explicit pending
queue with numeric handles, and the promise chain of `connectedCallback`
as sequential `Except`-style steps (the host event loop runs each `.then`
continuation only after the previous promise settles).
-/

namespace MakeComponent

/-- JavaScript values, to the extent the module inspects them: the module
only ever branches on `typeof v`, reads/writes string-keyed properties of
objects, and stores strings and booleans. An object is an association
list of fields. -/
inductive JSVal where
  | vnull
  | vundefined
  | vbool (b : Bool)
  | vnum (n : Int)
  | vstr (s : String)
  | vobj (fields : List (String × JSVal))

/-- JS `typeof` operator on the values above. Note the JS quirk that
`typeof null` is `"object"`. -/
def typeof : JSVal → String
  | .vnull => "object"
  | .vundefined => "undefined"
  | .vbool _ => "boolean"
  | .vnum _ => "number"
  | .vstr _ => "string"
  | .vobj _ => "object"

/-- Whether a value is the JS `null` reference. -/
def JSVal.isNull : JSVal → Bool
  | .vnull => true
  | _ => false

/-- Update an association list of object fields at key `k` (JS property
assignment on an object: overwrite an existing key in place, otherwise
append the new key). -/
def updField : List (String × JSVal) → String → JSVal → List (String × JSVal)
  | [], k, v => [(k, v)]
  | (k', v') :: rest, k, v =>
      if k' = k then (k, v) :: rest else (k', v') :: updField rest k v

/-- JS property write `o[k] = v`: succeeds only when `o` is an object
(on a primitive, `null` or `undefined`, strict-mode code throws, which we
model as `none`). -/
def setProp : JSVal → String → JSVal → Option JSVal
  | .vobj fs, k, v => some (.vobj (updField fs k v))
  | _, _, _ => none

/-- JS property read `o[k]` on an object (`none` when the key is absent). -/
def getField : JSVal → String → Option JSVal
  | .vobj fs, k => (fs.find? (fun p => p.1 = k)).map (fun p => p.2)
  | _, _ => none

/-! ## DOM events

Only the flags the module reads or writes are modelled: the event type,
the `bubbles` / `cancelable` init options, and the three mutations
`stopPropagation`, `stopImmediatePropagation`, `preventDefault`. -/

/-- A DOM `Event`, restricted to the state the module observes or mutates. -/
structure DOMEvent where
  etype : String
  bubbles : Bool
  cancelable : Bool
  propagationStopped : Bool
  immediateStopped : Bool
  defaultPrevented : Bool

/-- The DOM `Event` constructor `new Event(t)` with no init dictionary:
per the DOM standard, `EventInit.bubbles` and `EventInit.cancelable`
default to `false`, and the three mutation flags start unset. -/
def Event.new (t : String) : DOMEvent :=
  ⟨t, false, false, false, false, false⟩

/-- `evt.stopPropagation()`. -/
def stopPropagation (e : DOMEvent) : DOMEvent :=
  { e with propagationStopped := true }

/-- `evt.stopImmediatePropagation()`. -/
def stopImmediatePropagation (e : DOMEvent) : DOMEvent :=
  { e with immediateStopped := true }

/-- `evt.preventDefault()`. -/
def preventDefault (e : DOMEvent) : DOMEvent :=
  { e with defaultPrevented := true }

/-- `Base.popBubble(evt, preventDefault)` (src/index.js lines 119-125):
stops propagation, stops same-level (immediate) propagation, and prevents
the default action only when the flag is truthy. -/
def popBubble (evt : DOMEvent) (pd : Bool) : DOMEvent :=
  let e1 := stopPropagation evt
  let e2 := stopImmediatePropagation e1
  if pd then preventDefault e2 else e2

/-! ## Registrar -/

/-- An opaque class reference (identity matters, structure does not). -/
structure ClassRef where
  id : Nat
deriving DecidableEq, Repr

/-- The host custom-element registry, as the sequence of
`define(tag, class)` registrations it has received. -/
abbrev Registry := List (String × ClassRef)

/-- `customElements.define(tag_name, component_class)`: record the
registration in the host registry. -/
def customElementsDefine (r : Registry) (tag : String) (c : ClassRef) : Registry :=
  r ++ [(tag, c)]

/-- `makewc` (src/index.js lines 17-20): register the class under the tag
name in the host registry and return the class reference. -/
def makewc (r : Registry) (tag : String) (c : ClassRef) : Registry × ClassRef :=
  (customElementsDefine r tag c, c)

/-! ## Template and render -/

/-- The opaque renderable produced by a template override; the default
template produces the empty `html` literal. -/
inductive TemplateOut where
  | empty
  | custom (s : String)
deriving DecidableEq, Repr

/-- Where the external `render` function is pointed: the instance's shadow
root (`this.shadow`) when present, the element itself otherwise. -/
inductive RenderTarget where
  | shadowRoot
  | element
deriving DecidableEq, Repr

/-- One invocation of the external lit-html `render(output, target)`. -/
structure RenderCall where
  tmpl : TemplateOut
  target : RenderTarget
deriving DecidableEq, Repr

/-- The observable effect of `Base.render()`: console output produced by
the template hook, and the call (if any) handed to the external render
function. -/
structure RenderEffect where
  console : List String
  call : Option RenderCall
deriving DecidableEq, Repr

/-- The default `Base.template` (src/index.js lines 62-65): warn on the
console and return the empty template. A template hook is a function from
the instance (elided: the default ignores it) to console output plus a
renderable. -/
def defaultTemplate : Unit → List String × TemplateOut :=
  fun _ => (["There is not template defined."], TemplateOut.empty)

/-- `Base.render()` (src/index.js lines 103-111): if `___CAN_RENDER___`
is false, do nothing (the template hook is not even invoked); otherwise
invoke the template hook and hand its output to the external render
function, targeting `this.shadow` when present and `this` otherwise. -/
def Base.render (canRender : Bool) (hasShadow : Bool)
    (templateFn : Unit → List String × TemplateOut) : RenderEffect :=
  if canRender then
    ⟨(templateFn ()).1,
     some ⟨(templateFn ()).2,
           if hasShadow then RenderTarget.shadowRoot else RenderTarget.element⟩⟩
  else ⟨[], none⟩

/-! ## Lifecycle orchestration (`Base.constructor`, `Base.connectedCallback`)

`connectedCallback` is the promise chain
`this.pre().then(A).then(() => this.init()).catch((e) => this.setupError(e))`
where `A` sets `___CAN_RENDER___ = true`, calls `this.render()` and
resolves. On the single-threaded host event loop each continuation runs
only after the previous promise settles, so the chain is embedded as
sequential `Except`-passing steps; a hook override is represented by the
settled outcome of its promise (`Except String Unit`, the `String` an
opaque rejection reason). The trace records each observable step in
execution order. -/

/-- Observable steps of one `connectedCallback` run, in order. -/
inductive LAct where
  | preSettled (r : Except String Unit)
  | flagFlip (old : Bool) (new : Bool)
  | renderPass (call : Option RenderCall)
  | initSettled (r : Except String Unit)
  | setupErrorCall (e : String)

/-- Whether a lifecycle step is an invocation of `setupError`. -/
def LAct.isSetupError : LAct → Bool
  | .setupErrorCall _ => true
  | _ => false

/-- The instance state `connectedCallback` reads and writes: the
`___CAN_RENDER___` flag plus the trace of observable steps. -/
structure LRun where
  CAN_RENDER : Bool
  trace : List LAct

/-- `Base.constructor` (src/index.js lines 34-37): `___CAN_RENDER___`
starts false, nothing has run yet. -/
def baseInit : LRun := ⟨false, []⟩

/-- `.then(f)` on a settled promise: run `f` only when the previous step
resolved, otherwise propagate the rejection past it. -/
def thenStep (p : LRun × Except String Unit)
    (f : LRun → LRun × Except String Unit) : LRun × Except String Unit :=
  match p with
  | (s, .ok _) => f s
  | (s, .error e) => (s, .error e)

/-- `.catch(h)` on a settled promise: a resolution passes through; a
rejection runs the handler and the resulting promise resolves (the error
is swallowed, not rethrown). -/
def catchStep (p : LRun × Except String Unit)
    (h : LRun → String → LRun) : LRun × Except String Unit :=
  match p with
  | (s, .ok u) => (s, .ok u)
  | (s, .error e) => (h s e, .ok ())

/-- `this.pre()` settling with outcome `preRes`. -/
def runPre (preRes : Except String Unit) (s : LRun) : LRun × Except String Unit :=
  ({ s with trace := s.trace ++ [LAct.preSettled preRes] }, preRes)

/-- The first `.then` continuation (src/index.js lines 40-44): set
`___CAN_RENDER___ = true`, call `this.render()` (which, on a fresh `Base`,
uses the default template), and resolve. -/
def afterPre (hasShadow : Bool) (s : LRun) : LRun × Except String Unit :=
  let s1 := { s with CAN_RENDER := true,
                     trace := s.trace ++ [LAct.flagFlip s.CAN_RENDER true] }
  let eff := Base.render s1.CAN_RENDER hasShadow defaultTemplate
  ({ s1 with trace := s1.trace ++ [LAct.renderPass eff.call] }, .ok ())

/-- `this.init()` settling with outcome `initRes`. -/
def runInit (initRes : Except String Unit) (s : LRun) : LRun × Except String Unit :=
  ({ s with trace := s.trace ++ [LAct.initSettled initRes] }, initRes)

/-- `Base.setupError(e)` (src/index.js lines 93-95): log the error (the
trace records the call); it neither rethrows nor mutates the flag. -/
def runSetupError (s : LRun) (e : String) : LRun :=
  { s with trace := s.trace ++ [LAct.setupErrorCall e] }

/-- `Base.connectedCallback()` (src/index.js lines 38-47), run to
quiescence from a freshly constructed instance, given the settled
outcomes of the `pre` and `init` overrides. The second component is the
settled outcome of the whole chain (what a caller awaiting it would
see). -/
def connectedCallbackRun (preRes initRes : Except String Unit)
    (hasShadow : Bool) : LRun × Except String Unit :=
  catchStep
    (thenStep
      (thenStep (runPre preRes baseInit) (afterPre hasShadow))
      (runInit initRes))
    runSetupError

/-! ## FormBase

`FormBase.constructor` (src/index.js lines 148-173) sets `_data = {}`,
declares the closure variable `debounceTimeout`, and installs `handler`
for both `change` and `input` events. `handler` (lines 153-169) ignores
events whose target is the component itself or has a falsy `name`; stores
the control's value into `this.data` (checkbox: `hasAttribute("checked")`
as a boolean, otherwise the string `value`); then runs
`debounceTimeout = setTimeout(cb, 10)` where
`cb = () => { clearTimeout(debounceTimeout); this.handleChange(evt); }`.
Note the source does NOT clear any pending timer before `setTimeout`; the
only `clearTimeout` is inside the callback and cancels whichever handle
the variable holds at fire time.

Timers are embedded explicitly: a pending queue of `(handle, absolute
fire time, captured event)`, handles allocated in increasing order, the
host firing due timers in (fire time, handle) order. -/

/-- A qualifying DOM event as `handler` observes it: whether
`evt.target === this`, the target's `name` (the empty string models a
missing/empty `name`, both falsy in `!evt.target.name`), the target's
`type`, `hasAttribute("checked")`, and the string `value`. -/
structure Evt where
  targetIsSelf : Bool
  name : String
  ctype : String
  hasCheckedAttr : Bool
  value : String
deriving DecidableEq, Repr

/-- A pending `setTimeout` timer: its handle, absolute fire time (ms),
and the event captured by the callback closure. -/
structure Timer where
  id : Nat
  fireAt : Nat
  evt : Evt
deriving DecidableEq, Repr

/-- The mutable state of one `FormBase` instance (plus instrumentation):
the backing `_data` reference, the pending timer queue, the closure
variable `debounceTimeout` (the last handle `setTimeout` returned), the
next fresh handle, the sequence of `handleChange` invocations (each with
the event it received), and a count of `this.render()` calls. -/
structure FBState where
  _data : JSVal
  pending : List Timer
  debounce : Option Nat
  nextId : Nat
  changeLog : List Evt
  renders : Nat

/-- `FormBase.constructor` (src/index.js lines 148-152): `_data` starts
as the empty object, no timer pending, `debounceTimeout` undefined. -/
def fbInit : FBState :=
  { _data := JSVal.vobj [], pending := [], debounce := none,
    nextId := 0, changeLog := [], renders := 0 }

/-- The `change`/`input` listener `handler` (src/index.js lines 153-169)
delivered one event at absolute time `now`. Returns `none` when the
property write throws (backing reference not an object). -/
def handler (now : Nat) (evt : Evt) (s : FBState) : Option FBState :=
  if evt.targetIsSelf = true ∨ evt.name = "" then some s
  else
    match setProp s._data evt.name
        (if evt.ctype = "checkbox" then JSVal.vbool evt.hasCheckedAttr
         else JSVal.vstr evt.value) with
    | none => none
    | some d =>
        some { s with
          _data := d,
          pending := s.pending ++ [⟨s.nextId, now + 10, evt⟩],
          debounce := some s.nextId,
          nextId := s.nextId + 1 }

/-- One timer firing: the host removes the fired timer from the queue and
runs its callback, which is `clearTimeout(debounceTimeout)` — cancelling
whichever handle the closure variable currently holds, a no-op when that
timer already fired or was cleared — followed by `this.handleChange(evt)`
(logged). -/
def fire (s : FBState) (t : Timer) : FBState :=
  let rest := s.pending.filter (fun u => u.id ≠ t.id)
  let rest2 := rest.filter (fun u => s.debounce ≠ some u.id)
  { s with pending := rest2, changeLog := s.changeLog ++ [t.evt] }

/-- The earliest pending timer in host firing order: smallest fire time,
ties broken by handle allocation order. -/
def minTimer : List Timer → Option Timer
  | [] => none
  | t :: ts =>
      some (ts.foldl
        (fun m u =>
          if u.fireAt < m.fireAt ∨ (u.fireAt = m.fireAt ∧ u.id < m.id) then u
          else m)
        t)

/-- Fire every pending timer due at or before `now`, in host order
(fuel bounds the recursion; each fire strictly shrinks the queue). -/
def runDueFuel : Nat → FBState → Nat → FBState
  | 0, s, _ => s
  | fuel + 1, s, now =>
      match minTimer (s.pending.filter (fun t => t.fireAt ≤ now)) with
      | none => s
      | some t => runDueFuel fuel (fire s t) now

/-- Fire all timers due at or before `now`. -/
def runDue (s : FBState) (now : Nat) : FBState :=
  runDueFuel s.pending.length s now

/-- Let the event loop run to quiescence: fire every remaining pending
timer in host order. -/
def flushFuel : Nat → FBState → FBState
  | 0, s => s
  | fuel + 1, s =>
      match minTimer s.pending with
      | none => s
      | some t => flushFuel fuel (fire s t)

/-- Fire all remaining pending timers in host order. -/
def flush (s : FBState) : FBState :=
  flushFuel s.pending.length s

/-- Deliver a timed sequence of events to the instance (times in
nondecreasing order): before each delivery the host fires the timers
already due, and after the last delivery the loop runs to quiescence. -/
def simulate (s : FBState) : List (Nat × Evt) → Option FBState
  | [] => some (flush s)
  | (t, e) :: rest =>
      match handler t e (runDue s t) with
      | none => none
      | some s1 => simulate s1 rest

/-- `this.render()` on a `FormBase` (instrumented: count the call). -/
def FBState.render (s : FBState) : FBState :=
  { s with renders := s.renders + 1 }

/-- The `data` setter (src/index.js lines 184-190): if
`typeof value != "object"` return silently; otherwise assign `_data` and
call `this.render()`. (The `data` getter, lines 175-177, returns `_data`
itself — the field `_data` in `FBState`.) -/
def FormBase.setData (s : FBState) (v : JSVal) : FBState :=
  if typeof v ≠ "object" then s
  else FBState.render { s with _data := v }

/-- The default `FormBase.handleChange(evt)` (src/index.js lines
199-202): `this.popBubble(evt)` — the `preventDefault` parameter is
omitted, hence falsy — then `this.dispatchEvent(new Event("change"))`.
Returns the mutated incoming event and the event dispatched from the
component. -/
def FormBase.handleChange (evt : DOMEvent) : DOMEvent × DOMEvent :=
  (popBubble evt false, Event.new "change")

/-! ## Concrete scenes used by the spec's examples -/

/-- An `input` event from a text control named `"title"` holding `v`. -/
def tEvt (v : String) : Evt :=
  ⟨false, "title", "text", false, v⟩

/-- The spec's burst example: five input events on the `"title"` control
within the 10ms window (at 0, 2, 4, 6 and 8 ms), typing up to
`"Hello"`. -/
def burst5 : List (Nat × Evt) :=
  [(0, tEvt "H"), (2, tEvt "He"), (4, tEvt "Hel"),
   (6, tEvt "Hell"), (8, tEvt "Hello")]

/-- An event whose target is the component itself. -/
def selfEvt : Evt :=
  ⟨true, "x", "text", false, "v"⟩

/-- The spec's checkbox example: a change event from a checkbox named
`"agree"` with the `checked` attribute present. -/
def agreeEvt : Evt :=
  ⟨false, "agree", "checkbox", true, "on"⟩

/-- The state of a fresh `FormBase` right after `handler` processed
`agreeEvt` at time 0. -/
def agreeStepState : FBState :=
  { _data := JSVal.vobj [("agree", JSVal.vbool true)],
    pending := [⟨0, 10, agreeEvt⟩], debounce := some 0,
    nextId := 1, changeLog := [], renders := 0 }

/-- A bubbling, non-cancelable `change` event as a form control would
dispatch it, reaching the component's default `handleChange`. -/
def controlChangeEvt : DOMEvent :=
  ⟨"change", true, false, false, false, false⟩

/-! ## Helper lemmas -/

/-- Reading back the field just written: `updField` stores `v` at `k`. -/
lemma getField_updField (fs : List (String × JSVal)) (k : String) (v : JSVal) :
    getField (JSVal.vobj (updField fs k v)) k = some v := by
  induction fs with
  | nil => simp [updField, getField, List.find?]
  | cons p rest ih =>
      by_cases h : p.1 = k
      · simp [updField, getField, List.find?, h]
      · simp only [updField, h, if_false]
        simp only [getField, List.find?] at ih ⊢
        simp [h, ih]

/-- A successful JS property write yields an object (never `null`). -/
lemma setProp_not_null {o : JSVal} {k : String} {v d : JSVal}
    (h : setProp o k v = some d) : d.isNull = false := by
  cases o <;> simp [setProp] at h
  subst h
  rfl

/-- `fire` leaves the render count unchanged. -/
lemma fire_renders (s : FBState) (t : Timer) :
    (fire s t).renders = s.renders := rfl

/-- `fire` leaves the backing data reference unchanged. -/
lemma fire_data (s : FBState) (t : Timer) :
    (fire s t)._data = s._data := rfl

/-- Firing due timers leaves the render count unchanged. -/
lemma runDueFuel_renders (fuel : Nat) :
    ∀ (s : FBState) (now : Nat), (runDueFuel fuel s now).renders = s.renders := by
  induction fuel with
  | zero => intro s now; rfl
  | succ f ih =>
      intro s now
      unfold runDueFuel
      split
      · rfl
      · rw [ih]; rfl

/-- Firing due timers leaves the backing data reference unchanged. -/
lemma runDueFuel_data (fuel : Nat) :
    ∀ (s : FBState) (now : Nat), (runDueFuel fuel s now)._data = s._data := by
  induction fuel with
  | zero => intro s now; rfl
  | succ f ih =>
      intro s now
      unfold runDueFuel
      split
      · rfl
      · rw [ih]; rfl

/-- Flushing remaining timers leaves the render count unchanged. -/
lemma flushFuel_renders (fuel : Nat) :
    ∀ s : FBState, (flushFuel fuel s).renders = s.renders := by
  induction fuel with
  | zero => intro s; rfl
  | succ f ih =>
      intro s
      unfold flushFuel
      split
      · rfl
      · rw [ih]; rfl

/-- The event handler leaves the render count unchanged. -/
lemma handler_renders {now : Nat} {evt : Evt} {s s' : FBState}
    (h : handler now evt s = some s') : s'.renders = s.renders := by
  unfold handler at h
  split at h
  · injection h with h; subst h; rfl
  · split at h
    · exact Option.noConfusion h
    · injection h with h; subst h; rfl

/-- A whole simulated run never changes the render count: neither event
delivery nor timer firing calls `this.render()`. -/
lemma simulate_renders {inputs : List (Nat × Evt)} :
    ∀ {s s2 : FBState}, simulate s inputs = some s2 → s2.renders = s.renders := by
  induction inputs with
  | nil =>
      intro s s2 h
      unfold simulate at h
      injection h with h
      subst h
      exact (flushFuel_renders _ _).trans rfl
  | cons p rest ih =>
      intro s s2 h
      unfold simulate at h
      split at h
      · exact Option.noConfusion h
      · rename_i s1 hs1
        calc s2.renders = s1.renders := ih h
          _ = (runDue s p.1).renders := handler_renders hs1
          _ = s.renders := by unfold runDue; exact runDueFuel_renders _ _ _

/-! ## Claim theorems -/

/-- C9. `makewc` registers the class against the tag identifier in the
host's global element registry and returns exactly the same class
reference unchanged, unconditionally (no validation of its own: the
registration happens for every tag string and class reference). -/
theorem makewc_registers_and_returns (r : Registry) (tag : String) (c : ClassRef) :
    makewc r tag c = (customElementsDefine r tag c, c) ∧
    customElementsDefine r tag c = r ++ [(tag, c)] ∧
    (makewc r tag c).2 = c :=
  ⟨rfl, rfl, rfl⟩

/-- C2. For a subclass overriding only `pre` whose `pre` resolves
(whatever `init` does and whether or not a shadow root is present): the
render-enabled flag is false at construction; the trace opens with `pre`
settling, then the flag flipping false → true, then the render pass
(which does happen, handing the default template's output to the external
render function), then `init` settling — so the render pass occurs only
after `pre` settles, the flag is false before and true after, and `init`
runs only after that render pass. -/
theorem pre_gates_render (initRes : Except String Unit) (hasShadow : Bool) :
    baseInit.CAN_RENDER = false ∧
    (connectedCallbackRun (.ok ()) initRes hasShadow).1.trace.take 4 =
      [LAct.preSettled (.ok ()),
       LAct.flagFlip false true,
       LAct.renderPass (some ⟨TemplateOut.empty,
         if hasShadow then RenderTarget.shadowRoot else RenderTarget.element⟩),
       LAct.initSettled initRes] ∧
    (connectedCallbackRun (.ok ()) initRes hasShadow).1.CAN_RENDER = true := by
  cases initRes <;> cases hasShadow <;> exact ⟨rfl, rfl, rfl⟩

/-- C3. When `pre` rejects with reason `e`, the whole run is
`setupError e` right after `pre` settles: the flag never flips, no render
pass happens, `init` never runs, `setupError` is invoked exactly once
with the rejection reason, and the chain settles resolved (the error is
swallowed, not rethrown). When `pre` resolves but `init` rejects with
`e`, the flag flip, render pass and `init` all happen first, then
`setupError e` exactly once, nothing after it, and again the chain
settles resolved. -/
theorem hook_rejection_routes_to_setupError (e : String)
    (initRes : Except String Unit) (hasShadow : Bool) :
    connectedCallbackRun (.error e) initRes hasShadow =
      (⟨false, [LAct.preSettled (.error e), LAct.setupErrorCall e]⟩, .ok ()) ∧
    connectedCallbackRun (.ok ()) (.error e) hasShadow =
      (⟨true, [LAct.preSettled (.ok ()),
               LAct.flagFlip false true,
               LAct.renderPass (some ⟨TemplateOut.empty,
                 if hasShadow then RenderTarget.shadowRoot
                 else RenderTarget.element⟩),
               LAct.initSettled (.error e),
               LAct.setupErrorCall e]⟩, .ok ()) ∧
    (connectedCallbackRun (.error e) initRes hasShadow).1.trace.countP
      LAct.isSetupError = 1 ∧
    (connectedCallbackRun (.ok ()) (.error e) hasShadow).1.trace.countP
      LAct.isSetupError = 1 := by
  cases initRes <;> cases hasShadow <;> exact ⟨rfl, rfl, rfl, rfl⟩

/-- C1 (code evaluation at the failing input). Firing five qualifying
input events within the 10ms window — the spec's own example, typing
`"Hello"` into the `"title"` control at 0, 2, 4, 6, 8 ms — makes the code
invoke `handleChange` FOUR times, not once, and with the first four
events, never the final one: `handler` schedules a new timer per event
without clearing the pending one (the only `clearTimeout` runs inside the
timer callback and cancels just the most recently stored handle, i.e. the
trailing event's timer). Only the data mapping reflects the final
value. -/
theorem debounce_burst_fires_four_times :
    (simulate fbInit burst5).map (fun s => s.changeLog) =
      some [tEvt "H", tEvt "He", tEvt "Hel", tEvt "Hell"] ∧
    (simulate fbInit burst5).map (fun s => s.changeLog.length) = some 4 ∧
    ¬ ((simulate fbInit burst5).map (fun s => s.changeLog.length) = some 1) ∧
    (simulate fbInit burst5).map (fun s => getField s._data "title") =
      some (some (JSVal.vstr "Hello")) := by
  refine ⟨rfl, rfl, ?_, rfl⟩
  intro h
  rw [show (simulate fbInit burst5).map (fun s => s.changeLog.length) = some 4 from rfl] at h
  exact absurd (Option.some.inj h) (by decide)

/-- Contrast for the burst result above: a single qualifying event does
invoke `handleChange` exactly once — the defect is specific to bursts
inside the window. -/
theorem debounce_single_event_fires_once :
    (simulate fbInit [(0, tEvt "Hello")]).map (fun s => s.changeLog) =
      some [tEvt "Hello"] := rfl

/-- C4. The `data` setter: an assignment whose value is not
object-typed (per JS `typeof`) is a silent no-op — the state, backing
mapping and render count are exactly unchanged — while an object-typed
assignment replaces the mapping wholesale with the assigned value and
calls `this.render()` exactly once. -/
theorem setData_typeof_guard (s : FBState) (v : JSVal) :
    FormBase.setData s v =
      if typeof v = "object"
      then { s with _data := v, renders := s.renders + 1 }
      else s := by
  unfold FormBase.setData FBState.render
  by_cases h : typeof v = "object" <;> simp [h]

/-- C5 (counterexample). The claim says no operation can make the
backing data reference null; but JS `typeof null = "object"`, so
assigning `null` to the `data` property passes the setter's type check
and replaces the backing reference with `null`. -/
theorem data_becomes_null_on_null_assignment :
    typeof JSVal.vnull = "object" ∧
    (FormBase.setData fbInit JSVal.vnull)._data = JSVal.vnull ∧
    ((FormBase.setData fbInit JSVal.vnull)._data.isNull = true) :=
  ⟨rfl, rfl, rfl⟩

/-- C5 (amended). The backing data reference defaults to an empty
mapping at construction, and the only operation that can make it null is
assigning `null` itself to the `data` property (which JS `typeof`
classifies as object-typed): every assignment of a non-null value keeps
it non-null, the change/input handler keeps it non-null, and timer
firing leaves it untouched. -/
theorem data_null_only_by_null_assignment :
    fbInit._data = JSVal.vobj [] ∧
    (∀ s v, JSVal.isNull v = false → (FBState._data s).isNull = false →
      (FormBase.setData s v)._data.isNull = false) ∧
    (∀ now evt s s', handler now evt s = some s' →
      (FBState._data s).isNull = false → s'._data.isNull = false) ∧
    (∀ s t, (fire s t)._data = s._data) := by
  refine ⟨rfl, ?_, ?_, fun s t => rfl⟩
  · intro s v hv hs
    unfold FormBase.setData FBState.render
    split
    · exact hs
    · simpa using hv
  · intro now evt s s' h hs
    unfold handler at h
    split at h
    · injection h with h; subst h; exact hs
    · split at h
      · exact Option.noConfusion h
      · rename_i d hd
        injection h with h
        subst h
        simpa using setProp_not_null hd

/-- C5 (amended, witness). Evaluating the amended claim at concrete
inputs: assigning the string `"x"` to a fresh instance's `data` keeps the
backing reference non-null, as does processing the `agree` checkbox
event, and firing a timer preserves the reference. -/
theorem data_null_only_by_null_assignment_w :
    (FormBase.setData fbInit (JSVal.vstr "x"))._data.isNull = false ∧
    agreeStepState._data.isNull = false ∧
    (fire fbInit ⟨0, 10, agreeEvt⟩)._data = fbInit._data :=
  ⟨data_null_only_by_null_assignment.2.1 fbInit (JSVal.vstr "x") rfl rfl,
   data_null_only_by_null_assignment.2.2.1 0 agreeEvt fbInit agreeStepState
     rfl rfl,
   data_null_only_by_null_assignment.2.2.2 fbInit ⟨0, 10, agreeEvt⟩⟩

/-- C6. The change/input handler: an event whose target is the component
itself or whose target has a falsy `name` leaves the state exactly as it
was (data mapping unchanged, no timer started, no handle stored); for any
other event delivered while the backing reference is an object, the
handler stores under the control's name a boolean equal to the presence
of the `checked` attribute when the control's type is `checkbox`, and the
control's current string value for every other type, and schedules
exactly one new 10ms timer. -/
theorem handler_stores_by_name_and_type (now : Nat) (evt : Evt) (s : FBState) :
    ((evt.targetIsSelf = true ∨ evt.name = "") → handler now evt s = some s) ∧
    (evt.targetIsSelf = false → evt.name ≠ "" →
      ∀ fs, FBState._data s = JSVal.vobj fs →
      handler now evt s = some { s with
        _data := JSVal.vobj (updField fs evt.name
          (if evt.ctype = "checkbox" then JSVal.vbool evt.hasCheckedAttr
           else JSVal.vstr evt.value)),
        pending := s.pending ++ [⟨s.nextId, now + 10, evt⟩],
        debounce := some s.nextId,
        nextId := s.nextId + 1 }) ∧
    (evt.targetIsSelf = false → evt.name ≠ "" →
      ∀ fs, FBState._data s = JSVal.vobj fs →
      ∃ s', handler now evt s = some s' ∧
        getField s'._data evt.name =
          some (if evt.ctype = "checkbox" then JSVal.vbool evt.hasCheckedAttr
                else JSVal.vstr evt.value) ∧
        s'.pending.length = s.pending.length + 1) := by
  have hmain : evt.targetIsSelf = false → evt.name ≠ "" →
      ∀ fs, FBState._data s = JSVal.vobj fs →
      handler now evt s = some { s with
        _data := JSVal.vobj (updField fs evt.name
          (if evt.ctype = "checkbox" then JSVal.vbool evt.hasCheckedAttr
           else JSVal.vstr evt.value)),
        pending := s.pending ++ [⟨s.nextId, now + 10, evt⟩],
        debounce := some s.nextId,
        nextId := s.nextId + 1 } := by
    intro hself hname fs hdata
    unfold handler
    rw [if_neg (by simp [hself, hname])]
    rw [hdata]
    rfl
  refine ⟨?_, hmain, ?_⟩
  · intro h
    unfold handler
    rw [if_pos h]
  · intro hself hname fs hdata
    refine ⟨_, hmain hself hname fs hdata, ?_, ?_⟩
    · exact getField_updField fs evt.name _
    · simp

/-- C6 (witness). Evaluating the handler at the spec's examples: an
event targeting the component itself is ignored on a fresh instance; the
`agree` checkbox change event stores `agree ↦ true` and schedules one
timer. -/
theorem handler_stores_by_name_and_type_w :
    handler 0 selfEvt fbInit = some fbInit ∧
    handler 0 agreeEvt fbInit = some agreeStepState ∧
    getField agreeStepState._data "agree" = some (JSVal.vbool true) ∧
    agreeStepState.pending.length = fbInit.pending.length + 1 := by
  refine ⟨(handler_stores_by_name_and_type 0 selfEvt fbInit).1 (Or.inl rfl),
          ?_, ?_, ?_⟩
  · exact (handler_stores_by_name_and_type 0 agreeEvt fbInit).2.1
      rfl (by decide) [] rfl
  · obtain ⟨s', hs', hget, _⟩ :=
      (handler_stores_by_name_and_type 0 agreeEvt fbInit).2.2
        rfl (by decide) [] rfl
    have : s' = agreeStepState := by
      have h2 : handler 0 agreeEvt fbInit = some agreeStepState :=
        (handler_stores_by_name_and_type 0 agreeEvt fbInit).2.1
          rfl (by decide) [] rfl
      rw [h2] at hs'
      exact (Option.some.inj hs').symm
    rw [this] at hget
    exact hget
  · rfl

/-- C7 (counterexample). The event dispatched by the default
`handleChange` is `new Event("change")`, whose DOM-default `bubbles` is
false — it is NOT a bubbling event, contrary to the claim. -/
theorem dispatched_change_does_not_bubble :
    (FormBase.handleChange controlChangeEvt).2.bubbles = false ∧
    ¬ ((FormBase.handleChange controlChangeEvt).2.bubbles = true) :=
  ⟨rfl, fun h => Bool.noConfusion h⟩

/-- C7 (amended). The default `handleChange` stops the triggering
event's propagation, including same-level (immediate) propagation,
leaves its default action alone, and dispatches from the component itself
a new `"change"` event that is non-bubbling and non-cancelable. -/
theorem handleChange_stops_and_redispatches (evt : DOMEvent) :
    FormBase.handleChange evt =
      ({ evt with propagationStopped := true, immediateStopped := true },
       { etype := "change", bubbles := false, cancelable := false,
         propagationStopped := false, immediateStopped := false,
         defaultPrevented := false }) := by
  cases evt
  rfl

/-- C8. `Base.render()`: when the render-enabled flag is false the call
is a no-op (no template invocation, no console output, nothing handed to
the external render function); when the flag is true it invokes the
template hook and hands the hook's output to the external render
function, targeting the shadow root when present and the element itself
otherwise; and the default template hook warns on the console and
produces the empty output. -/
theorem render_gated_and_targets (hasShadow : Bool)
    (templateFn : Unit → List String × TemplateOut) :
    Base.render false hasShadow templateFn = ⟨[], none⟩ ∧
    Base.render true hasShadow templateFn =
      ⟨(templateFn ()).1,
       some ⟨(templateFn ()).2,
         if hasShadow then RenderTarget.shadowRoot else RenderTarget.element⟩⟩ ∧
    defaultTemplate () = (["There is not template defined."], TemplateOut.empty) :=
  ⟨rfl, rfl, rfl⟩

/-- C10. Storing a control value on a qualifying event mutates the
backing data object directly (through the getter's reference, bypassing
the setter) and never calls `this.render()`: a handler invocation, a
timer firing, and any whole simulated run of events and timers leave the
render count unchanged; the only operations that render are a successful
(object-typed) assignment to the `data` property — exactly once — and an
explicit `render()` call. -/
theorem handler_never_renders (now : Nat) (evt : Evt) (s s' : FBState)
    (t : Timer) (v : JSVal) (inputs : List (Nat × Evt)) (s2 : FBState) :
    (handler now evt s = some s' → s'.renders = s.renders) ∧
    (fire s t).renders = s.renders ∧
    (FormBase.setData s v).renders =
      s.renders + (if typeof v = "object" then 1 else 0) ∧
    (FBState.render s).renders = s.renders + 1 ∧
    (simulate s inputs = some s2 → s2.renders = s.renders) := by
  refine ⟨handler_renders, fire_renders s t, ?_, rfl, simulate_renders⟩
  unfold FormBase.setData FBState.render
  by_cases h : typeof v = "object" <;> simp [h]

/-- C10 (witness). Evaluating at concrete inputs: processing the `agree`
checkbox event on a fresh instance updates the mapping but leaves the
render count at zero, as does a whole simulated run of the empty event
sequence. -/
theorem handler_never_renders_w :
    agreeStepState.renders = fbInit.renders ∧
    (flush fbInit).renders = fbInit.renders :=
  ⟨(handler_never_renders 0 agreeEvt fbInit agreeStepState ⟨0, 10, agreeEvt⟩
      JSVal.vnull [] fbInit).1 rfl,
   (handler_never_renders 0 agreeEvt fbInit agreeStepState ⟨0, 10, agreeEvt⟩
      JSVal.vnull [] (flush fbInit)).2.2.2.2 rfl⟩

end MakeComponent
